import Mathlib

/-!
Shallow embedding of `generate_cv.py` (repository pierre-db/cv-generation).

The program is a straight-line CLI pipeline: parse a YAML data file into a
mapping, render a Jinja2 HTML template against that mapping (augmented with a
derived `resources_path` file URI), write the HTML, optionally shell out to a
Chromium binary to print the HTML to PDF, and finally patch the PDF metadata
with pypdf.

The embedding models:
  * YAML values as the inductive `Yaml` (null / bool / int / string / list /
    string-keyed mapping), mappings as insertion-ordered association lists,
    which matches Python dict iteration order for the operations the program
    performs (`get`, item assignment);
  * Python string formatting of values (used in f-strings) by `pyStr`/`pyRepr`;
  * `pathlib` operations `stem`, `with_suffix`, `parent`, `absolute`, `as_uri`
    by executable string functions over POSIX-style paths;
  * the outside world (file contents, the template engine, the browser, the
    pypdf reader/writer) by an `Env` record of oracles, and the observable
    behaviour of a run as an `Outcome` plus a trace of filesystem/process
    effects and the lines printed to stdout/stderr.
-/

namespace CvGen

/-- A parsed YAML value, as `yaml.safe_load` produces it.  Mappings are kept as
insertion-ordered association lists with string keys (the shape the program
relies on); a non-mapping top-level value is representable and is exactly the
case in which `main`'s item assignment raises. -/
inductive Yaml where
  | null : Yaml
  | bool (b : Bool) : Yaml
  | int (n : Int) : Yaml
  | str (s : String) : Yaml
  | list (xs : List Yaml) : Yaml
  | map (entries : List (String × Yaml)) : Yaml

/-- Whether a YAML value is a mapping (a Python `dict`). -/
def Yaml.isMapB : Yaml → Bool
  | .map _ => true
  | _ => false

/-- Python `d[k]` lookup on a dict modelled as an association list (first
binding wins; the program never creates duplicate keys). -/
def pyLookup (d : List (String × Yaml)) (k : String) : Option Yaml :=
  match d with
  | [] => none
  | (k₀, v₀) :: rest => if k₀ = k then some v₀ else pyLookup rest k

/-- Python `d.get(k, default)`. -/
def pyGetD (d : List (String × Yaml)) (k : String) (default : Yaml) : Yaml :=
  match pyLookup d k with
  | some v => v
  | none => default

/-- Python `d[k] = v` on a dict: overwrite in place when the key is present,
append otherwise (Python dicts preserve insertion order). -/
def pySetItem (d : List (String × Yaml)) (k : String) (v : Yaml) :
    List (String × Yaml) :=
  match d with
  | [] => [(k, v)]
  | (k₀, v₀) :: rest =>
    if k₀ = k then (k₀, v) :: rest else (k₀, v₀) :: pySetItem rest k v

/-- A single-quote character, used by Python `repr` of strings. -/
def sq : String := (Char.ofNat 39).toString

mutual

/-- Python `repr` of a parsed YAML value (element formatting inside
containers); string escaping inside quotes is not modelled. -/
def pyRepr : Yaml → String
  | .null => "None"
  | .bool b => if b then "True" else "False"
  | .int n => toString n
  | .str s => sq ++ s ++ sq
  | .list xs => "[" ++ pyReprList xs ++ "]"
  | .map m => "\x7b" ++ pyReprMap m ++ "\x7d"

/-- Comma-separated `repr`s of list elements. -/
def pyReprList : List Yaml → String
  | [] => ""
  | [x] => pyRepr x
  | x :: y :: rest => pyRepr x ++ ", " ++ pyReprList (y :: rest)

/-- Comma-separated `repr`s of dict items. -/
def pyReprMap : List (String × Yaml) → String
  | [] => ""
  | [(k, v)] => sq ++ k ++ sq ++ ": " ++ pyRepr v
  | (k, v) :: e :: rest =>
      sq ++ k ++ sq ++ ": " ++ pyRepr v ++ ", " ++ pyReprMap (e :: rest)

end

/-- Python `str` of a parsed YAML value, as an f-string interpolates it:
strings verbatim, containers and scalars via `repr`-style formatting. -/
def pyStr : Yaml → String
  | .str s => s
  | v => pyRepr v

/-- The fixed Creator string the program stamps into every patched PDF. -/
def creatorString : String := "CV Generator (Chromium + pypdf)"

/-- The metadata dictionary `add_pdf_metadata` passes to
`writer.add_metadata`, extracted from the data mapping
(`generate_cv.py` lines 67-81).  Returns `none` when the extraction itself
raises: `meta = data.get('meta', {})` followed by `meta.get(...)` raises
`AttributeError` when the stored `meta` value is not a mapping. -/
def metadataFields (data : List (String × Yaml)) :
    Option (List (String × Yaml)) :=
  let name := pyGetD data ("name") (.str ("Resume"))
  let title := pyGetD data ("title") (.str ("Resume"))
  match pyGetD data ("meta") (.map []) with
  | .map m =>
    let description :=
      pyGetD m ("description") (.str (pyStr name ++ " - " ++ pyStr title))
    let keywords := pyGetD m ("keywords") (.str "")
    some
      [("/Title", .str (pyStr name ++ " - " ++ pyStr title)),
       ("/Author", name),
       ("/Subject", description),
       ("/Keywords", keywords),
       ("/Creator", .str creatorString)]
  | _ => none

/-! ### POSIX path operations (`pathlib`)

String splitting and joining are implemented by structural recursion over the
character list (the behaviour of `str.split(sep)` / `sep.join(parts)` for a
one-character separator), so that every path function evaluates by kernel
reduction. -/

/-- Split a character list on a separator character. -/
def splitOnChar (c : Char) : List Char → List (List Char)
  | [] => [[]]
  | x :: xs =>
      match splitOnChar c xs with
      | [] => if x = c then [[], []] else [[x]]
      | y :: ys => if x = c then [] :: y :: ys else (x :: y) :: ys

/-- Join character lists with a separator character. -/
def joinWith (c : Char) : List (List Char) → List Char
  | [] => []
  | [x] => x
  | x :: y :: ys => x ++ c :: joinWith c (y :: ys)

/-- Join strings with a separator character. -/
def joinParts (c : Char) (l : List String) : String :=
  String.mk (joinWith c (l.map String.data))

/-- Does the string start with the given character? -/
def startsWithChar (c : Char) (s : String) : Bool :=
  match s.data with
  | [] => false
  | x :: _ => x = c

/-- Does the string end with the given character? -/
def endsWithChar (c : Char) (s : String) : Bool :=
  match s.data.getLast? with
  | some x => x = c
  | none => false

/-- Components of a POSIX path split on the separator. -/
def pathParts (p : String) : List String :=
  (splitOnChar ('/') p.data).map String.mk

/-- The final path component (`Path(p).name`). -/
def pathBase (p : String) : String := (pathParts p).getLastD ("")

/-- Split a basename into `pathlib` stem and suffix: the suffix starts at the
last dot, except that a lone leading dot (as in `.bashrc`) is part of the
stem. -/
def pySplitExt (base : String) : String × String :=
  match (splitOnChar ('.') base.data).map String.mk with
  | [] => (base, "")
  | [_] => (base, "")
  | ["", _] => (base, "")
  | parts =>
      (joinParts ('.') (parts.dropLast), "." ++ parts.getLastD (""))

/-- `Path(p).stem`. -/
def pyStem (p : String) : String := (pySplitExt (pathBase p)).1

/-- `Path(p).with_suffix(suf)`: the sibling path with the last suffix of the
basename replaced by `suf`. -/
def pyWithSuffix (p suf : String) : String :=
  let parts := pathParts p
  let base := parts.getLastD ("")
  joinParts ('/') (parts.dropLast ++ [(pySplitExt base).1 ++ suf])

/-- `Path(p).parent`. -/
def pyParent (p : String) : String :=
  let parts := pathParts p
  if parts.length ≤ 1 then "." else
    match parts.dropLast with
    | [""] => "/"
    | pre => joinParts ('/') pre

/-- `Path(a) / b` for a relative component `b`. -/
def pyJoin (a b : String) : String :=
  if a = "." then b
  else if endsWithChar ('/') a then a ++ b
  else a ++ "/" ++ b

/-- `Path(p).absolute()` against the working directory (no normalisation,
matching `pathlib`). -/
def pyAbsolute (cwd p : String) : String :=
  if startsWithChar ('/') p then p else cwd ++ "/" ++ p

/-- `Path(p).as_uri()` on an absolute path (percent-encoding of special
characters is not modelled; the paths the program builds are plain). -/
def asUri (p : String) : String := "file://" ++ p

/-! ### Observable behaviour of a run -/

/-- Observable side effects of a run, in order.  Read-only probes (`which`)
are not recorded.  `renderCall` marks the template engine being invoked on a
mapping; `mkdir` is `Path.mkdir(exist_ok=True)`; `writeBinary` is the pypdf
`writer.write` to the temporary file; `replaceFile` is a completed
`os.replace` (the platform guarantees the destination is either untouched or
fully replaced, so a failing replace leaves no trace effect). -/
inductive Effect where
  | renderCall (data : List (String × Yaml)) : Effect
  | mkdir (path : String) : Effect
  | writeFile (path : String) (content : String) : Effect
  | runBrowser (cmd : List String) : Effect
  | readPdf (path : String) : Effect
  | writeBinary (path : String) : Effect
  | replaceFile (src : String) (dst : String) : Effect

/-- How the process terminates: normal return from `main` (exit status 0), a
`sys.exit(code)` on one of the designed fatal paths, or an exception no
handler catches (the interpreter prints a traceback and exits with status 1). -/
inductive Outcome where
  | ok : Outcome
  | fatal (code : Nat) (msg : String) : Outcome
  | uncaught (msg : String) : Outcome

/-- The process exit status an outcome produces. -/
def Outcome.exitCode : Outcome → Nat
  | .ok => 0
  | .fatal code _ => code
  | .uncaught _ => 1

/-- Oracle for the pypdf interactions inside `add_pdf_metadata`. -/
structure PdfEnv where
  readOk : Bool
  readErr : String
  tempWriteOk : Bool
  tempWriteErr : String
  replaceOk : Bool
  replaceErr : String

/-- The outside world of one invocation: working directory, temp directory,
the data file (absent / unparseable / parsed), whether the template path is a
file, the template engine (Jinja template loading and rendering, a function of
the mapping passed to `render`), the HTML write result, which candidate
browser binaries `which` resolves, the browser subprocess result, and the
pypdf oracle. -/
structure Env where
  cwd : String
  tempDir : String
  dataFile : Option (Except String Yaml)
  templateIsFile : Bool
  render : List (String × Yaml) → Except String String
  htmlWriteErr : Option String
  whichOk : String → Bool
  browserReturncode : Int
  browserStderr : String
  pdf : PdfEnv

/-- Result of a whole run: termination outcome, effect trace, stdout lines,
stderr lines. -/
structure RunResult where
  outcome : Outcome
  effects : List Effect
  stdout : List String
  stderr : List String

/-! ### The embedded program -/

/-- `load_yaml` (generate_cv.py lines 16-26): the parsed value on success; on
a missing file or a YAML parse error, an error message and `sys.exit(1)`. -/
def load_yaml (env : Env) (yamlPath : String) : Except (Nat × String) Yaml :=
  match env.dataFile with
  | none => .error (1, "Error: YAML file not found: " ++ yamlPath)
  | some (.error e) => .error (1, "Error parsing YAML: " ++ e)
  | some (.ok y) => .ok y

/-- `add_pdf_metadata` (lines 57-92): the effect trace and the stderr lines.
The body reads the PDF, copies the pages, extracts the metadata mapping,
writes the new PDF to the `.tmp.pdf` sibling, and replaces the original; any
exception anywhere in the body is caught and downgraded to one warning, so
the function never terminates the process. -/
def add_pdf_metadata (env : Env) (pdfPath : String)
    (data : List (String × Yaml)) : List Effect × List String :=
  if env.pdf.readOk then
    match metadataFields data with
    | none =>
        ([.readPdf pdfPath],
         ["Warning: Could not add PDF metadata: AttributeError"])
    | some _ =>
        let tempPdf := pyWithSuffix pdfPath (".tmp.pdf")
        if env.pdf.tempWriteOk then
          if env.pdf.replaceOk then
            ([.readPdf pdfPath, .writeBinary tempPdf,
              .replaceFile tempPdf pdfPath], [])
          else
            ([.readPdf pdfPath, .writeBinary tempPdf],
             ["Warning: Could not add PDF metadata: " ++ env.pdf.replaceErr])
        else
          ([.readPdf pdfPath, .writeBinary tempPdf],
           ["Warning: Could not add PDF metadata: " ++ env.pdf.tempWriteErr])
  else
    ([.readPdf pdfPath],
     ["Warning: Could not add PDF metadata: " ++ env.pdf.readErr])

/-- The fixed, ordered list of candidate browser binary names (line 99). -/
def chromiumBins : List String :=
  ["chromium", "chromium-browser", "google-chrome", "chrome"]

/-- The first candidate binary that `which` resolves (lines 102-105). -/
def firstBrowser (env : Env) : Option String := chromiumBins.find? env.whichOk

/-- The headless-print command line (lines 112-122). -/
def browserCmd (env : Env) (bin htmlPath pdfPath : String) : List String :=
  [bin, "--headless", "--disable-gpu", "--no-sandbox",
   "--no-pdf-header-footer", "--print-to-pdf-no-header",
   "--run-all-compositor-stages-before-draw",
   "--print-to-pdf=" ++ pyAbsolute env.cwd pdfPath,
   asUri (pyAbsolute env.cwd htmlPath)]

/-- `convert_to_pdf` (lines 95-134): effect trace, stdout lines, stderr
lines.  Every failure path returns normally (warnings only). -/
def convert_to_pdf (env : Env) (htmlPath pdfPath : String)
    (data : List (String × Yaml)) :
    List Effect × List String × List String :=
  match firstBrowser env with
  | none =>
      ([], [],
       ["Warning: Chromium/Chrome not found. Skipping PDF conversion.",
        "Install chromium to enable PDF export."])
  | some bin =>
      let cmd := browserCmd env bin htmlPath pdfPath
      if env.browserReturncode = 0 then
        let meta := add_pdf_metadata env pdfPath data
        (.runBrowser cmd :: meta.1, ["PDF saved to: " ++ pdfPath], meta.2)
      else
        ([.runBrowser cmd], [],
         ["Error converting to PDF: " ++ env.browserStderr])

/-- The `--pdf` argument after argparse (declared with an optional value and
`const='default'`, lines 169-175): absent flag gives `none`; the flag with no
value gives the sentinel string `"default"`; an explicit value is passed
through. -/
def parsePdf : Option (Option String) → Option String
  | none => none
  | some none => some ("default")
  | some (some v) => some v

/-- Python truthiness of `args.pdf` (line 203): `None` and the empty string
are falsy. -/
def pdfTruthy : Option String → Bool
  | none => false
  | some s => !(s == "")

/-- The augmentation of the data mapping `main` performs before rendering
(lines 183-184): assign the `resources_path` key to the file URI of the
`resources` directory next to the template. -/
def augment (env : Env) (tplPath : String) (d : List (String × Yaml)) :
    List (String × Yaml) :=
  pySetItem d ("resources_path")
    (.str (asUri (pyAbsolute env.cwd (pyJoin (pyParent tplPath) ("resources")))))

/-- The body of `main` (lines 179-212) after argument parsing: load the data,
compute the `resources_path` file URI, assign it into the mapping (raising
`TypeError` when the parsed value is not a mapping), render, resolve the
output path, save the HTML, and optionally convert to PDF. -/
def runCore (env : Env) (tplPath dataPath : String) (output : Option String)
    (argsPdf : Option String) : RunResult :=
  match load_yaml env dataPath with
  | .error ec => ⟨.fatal ec.1 ec.2, [], [], [ec.2]⟩
  | .ok y =>
    match y with
    | .map d =>
      let d2 := augment env tplPath d
      if env.templateIsFile then
        match env.render d2 with
        | .error e =>
            let msg := "Error rendering template: " ++ e
            ⟨.fatal 1 msg, [.renderCall d2], [], [msg]⟩
        | .ok htmlContent =>
          let outInfo : String × List Effect :=
            match output with
            | some p => (p, [])
            | none =>
                let tempDir := env.tempDir ++ "/cv_generation"
                (tempDir ++ "/" ++ pyStem dataPath ++ ".html",
                 [.mkdir tempDir])
          let outputPath := outInfo.1
          let effs0 :=
            .renderCall d2 :: outInfo.2 ++ [.writeFile outputPath htmlContent]
          match env.htmlWriteErr with
          | some e =>
              let msg := "Error saving HTML: " ++ e
              ⟨.fatal 1 msg, effs0, [], [msg]⟩
          | none =>
            let out0 := ["HTML saved to: " ++ outputPath]
            if pdfTruthy argsPdf then
              let pdfInfo : String × List Effect :=
                if argsPdf = some ("default") then
                  ("./export/" ++ pyStem dataPath ++ ".pdf",
                   [.mkdir ("./export")])
                else
                  (argsPdf.getD (""), [])
              let conv := convert_to_pdf env outputPath pdfInfo.1 d2
              ⟨.ok, effs0 ++ pdfInfo.2 ++ conv.1,
               out0 ++ conv.2.1, conv.2.2⟩
            else
              ⟨.ok, effs0, out0, []⟩
      else
        let msg := "Error: Template file not found: " ++ tplPath
        ⟨.fatal 1 msg, [], [], [msg]⟩
    | _ =>
        ⟨.uncaught ("TypeError: the parsed value does not support item assignment"),
         [], [], []⟩

/-- One command-line invocation before argument parsing.  `pdfFlag` is
`none` when `--pdf` is absent, `some none` when `--pdf` is given with no
value, and `some (some v)` when given the explicit value `v`. -/
structure Cli where
  template : String
  dataPath : String
  output : Option String
  pdfFlag : Option (Option String)

/-- A whole invocation: argparse, then `main`. -/
def runMain (env : Env) (cli : Cli) : RunResult :=
  runCore env cli.template cli.dataPath cli.output (parsePdf cli.pdfFlag)

/-! ### Trace observers -/

/-- Effects that create or modify filesystem entries. -/
def Effect.isWrite : Effect → Bool
  | .mkdir _ => true
  | .writeFile _ _ => true
  | .writeBinary _ => true
  | .replaceFile _ _ => true
  | _ => false

/-- Whether a trace contains any filesystem write. -/
def writesB (effs : List Effect) : Bool := effs.any Effect.isWrite

/-- The mappings the template engine was invoked on. -/
def renderCalls : List Effect → List (List (String × Yaml))
  | [] => []
  | .renderCall d :: rest => d :: renderCalls rest
  | .mkdir _ :: rest => renderCalls rest
  | .writeFile _ _ :: rest => renderCalls rest
  | .runBrowser _ :: rest => renderCalls rest
  | .readPdf _ :: rest => renderCalls rest
  | .writeBinary _ :: rest => renderCalls rest
  | .replaceFile _ _ :: rest => renderCalls rest

/-- `renderCalls` distributes over concatenation. -/
theorem renderCalls_append (a b : List Effect) :
    renderCalls (a ++ b) = renderCalls a ++ renderCalls b := by
  induction a with
  | nil => rfl
  | cons e rest ih => cases e <;> simp [renderCalls, ih]

/-- The directories created. -/
def mkdirPaths : List Effect → List String
  | [] => []
  | .mkdir p :: rest => p :: mkdirPaths rest
  | _ :: rest => mkdirPaths rest

/-- `mkdirPaths` distributes over concatenation. -/
theorem mkdirPaths_append (a b : List Effect) :
    mkdirPaths (a ++ b) = mkdirPaths a ++ mkdirPaths b := by
  induction a with
  | nil => rfl
  | cons e rest ih => cases e <;> simp [mkdirPaths, ih]

/-- The PDF paths opened by the metadata patch. -/
def readPdfPaths : List Effect → List String
  | [] => []
  | .readPdf p :: rest => p :: readPdfPaths rest
  | _ :: rest => readPdfPaths rest

/-- `readPdfPaths` distributes over concatenation. -/
theorem readPdfPaths_append (a b : List Effect) :
    readPdfPaths (a ++ b) = readPdfPaths a ++ readPdfPaths b := by
  induction a with
  | nil => rfl
  | cons e rest ih => cases e <;> simp [readPdfPaths, ih]

/-- The paths the pypdf writer wrote to. -/
def writeBinaryPaths : List Effect → List String
  | [] => []
  | .writeBinary p :: rest => p :: writeBinaryPaths rest
  | _ :: rest => writeBinaryPaths rest

/-- The text-file writes (path, content). -/
def htmlWrites : List Effect → List (String × String)
  | [] => []
  | .writeFile p c :: rest => (p, c) :: htmlWrites rest
  | _ :: rest => htmlWrites rest

/-- `htmlWrites` distributes over concatenation. -/
theorem htmlWrites_append (a b : List Effect) :
    htmlWrites (a ++ b) = htmlWrites a ++ htmlWrites b := by
  induction a with
  | nil => rfl
  | cons e rest ih => cases e <;> simp [htmlWrites, ih]

/-- Whether the browser subprocess was invoked. -/
def hasRunBrowser : List Effect → Bool
  | [] => false
  | .runBrowser _ :: _ => true
  | _ :: rest => hasRunBrowser rest

/-- `hasRunBrowser` distributes over concatenation. -/
theorem hasRunBrowser_append (a b : List Effect) :
    hasRunBrowser (a ++ b) = (hasRunBrowser a || hasRunBrowser b) := by
  induction a with
  | nil => rfl
  | cons e rest ih => cases e <;> simp [hasRunBrowser, ih]

/-- Whether a completed replace occurred. -/
def hasReplace : List Effect → Bool
  | [] => false
  | .replaceFile _ _ :: _ => true
  | _ :: rest => hasReplace rest

/-- `hasReplace` distributes over concatenation. -/
theorem hasReplace_append (a b : List Effect) :
    hasReplace (a ++ b) = (hasReplace a || hasReplace b) := by
  induction a with
  | nil => rfl
  | cons e rest ih => cases e <;> simp [hasReplace, ih]

/-! ### Basic lemmas about the Python dict model -/

theorem pyLookup_setItem_self (d : List (String × Yaml)) (k : String)
    (v : Yaml) : pyLookup (pySetItem d k v) k = some v := by
  induction d with
  | nil => simp [pySetItem, pyLookup]
  | cons hd tl ih =>
      obtain ⟨k₀, v₀⟩ := hd
      by_cases h : k₀ = k <;> simp [pySetItem, pyLookup, h, ih]

theorem pyLookup_setItem_other (d : List (String × Yaml)) (k k₂ : String)
    (v : Yaml) (h : k₂ ≠ k) :
    pyLookup (pySetItem d k v) k₂ = pyLookup d k₂ := by
  have hne : k ≠ k₂ := fun h₂ => h h₂.symm
  induction d with
  | nil => simp [pySetItem, pyLookup, hne]
  | cons hd tl ih =>
      obtain ⟨k₀, v₀⟩ := hd
      by_cases h₀ : k₀ = k
      · subst h₀
        simp [pySetItem, pyLookup, hne]
      · simp [pySetItem, pyLookup, h₀, ih]

theorem keys_setItem_of_absent (d : List (String × Yaml)) (k : String)
    (v : Yaml) (h : pyLookup d k = none) :
    (pySetItem d k v).map Prod.fst = d.map Prod.fst ++ [k] := by
  induction d with
  | nil => simp [pySetItem]
  | cons hd tl ih =>
      obtain ⟨k₀, v₀⟩ := hd
      by_cases h₀ : k₀ = k
      · simp [pyLookup, h₀] at h
      · simp [pyLookup, h₀] at h
        simp [pySetItem, h₀, ih h]

/-! ### Closed form of the termination outcome -/

/-- The outcome of a run, as a function of the environment alone: the five
designed fatal conditions each yield `sys.exit(1)`, a non-mapping parsed value
yields an uncaught `TypeError`, and nothing in the PDF stage influences the
outcome. -/
theorem runCore_outcome (env : Env) (tplPath dataPath : String)
    (output : Option String) (argsPdf : Option String) :
    (runCore env tplPath dataPath output argsPdf).outcome =
      match env.dataFile with
      | none => .fatal 1 ("Error: YAML file not found: " ++ dataPath)
      | some (.error e) => .fatal 1 ("Error parsing YAML: " ++ e)
      | some (.ok (.map d)) =>
          if env.templateIsFile then
            match env.render (augment env tplPath d) with
            | .error e => .fatal 1 ("Error rendering template: " ++ e)
            | .ok _ =>
                match env.htmlWriteErr with
                | some e => .fatal 1 ("Error saving HTML: " ++ e)
                | none => .ok
          else .fatal 1 ("Error: Template file not found: " ++ tplPath)
      | some (.ok _) =>
          .uncaught ("TypeError: the parsed value does not support item assignment") := by
  cases hdf : env.dataFile with
  | none => simp [runCore, load_yaml, hdf]
  | some r =>
    cases r with
    | error e => simp [runCore, load_yaml, hdf]
    | ok y =>
      cases y with
      | map d =>
          by_cases ht : env.templateIsFile
          · cases hr : env.render (augment env tplPath d) with
            | error e => simp [runCore, load_yaml, hdf, ht, hr]
            | ok html =>
                cases hw : env.htmlWriteErr with
                | none =>
                    by_cases hp : pdfTruthy argsPdf = true <;>
                      simp [runCore, load_yaml, hdf, ht, hr, hw, hp]
                | some e => simp [runCore, load_yaml, hdf, ht, hr, hw]
          · simp [runCore, load_yaml, hdf, ht]
      | null => simp [runCore, load_yaml, hdf]
      | bool b => simp [runCore, load_yaml, hdf]
      | int n => simp [runCore, load_yaml, hdf]
      | str s => simp [runCore, load_yaml, hdf]
      | list xs => simp [runCore, load_yaml, hdf]

/-! ### Concrete fixtures -/

/-- The Jane Doe data mapping of the spec scenario. -/
def jdData : List (String × Yaml) :=
  [("name", .str ("Jane Doe")), ("title", .str ("Engineer"))]

/-- An environment in which every external step succeeds. -/
def envOk : Env where
  cwd := "/work"
  tempDir := "/tmp"
  dataFile := some (.ok (.map jdData))
  templateIsFile := true
  render := fun _ => .ok ("<html>")
  htmlWriteErr := none
  whichOk := fun b => b == "chrome"
  browserReturncode := 0
  browserStderr := ""
  pdf :=
    { readOk := true, readErr := ""
      tempWriteOk := true, tempWriteErr := ""
      replaceOk := true, replaceErr := "" }

/-- An invocation with an explicit output path and the bare `--pdf` flag. -/
def cliOk : Cli where
  template := "templates/cv.html"
  dataPath := "data/resume.yaml"
  output := some ("out.html")
  pdfFlag := some none

/-! ### C1: the PDF metadata fields -/

/-- **C1** counterexample: the claim says the patch sets exactly the four
fields Title, Author, Subject, Keywords for every data mapping.  On the Jane
Doe mapping the dictionary passed to `add_metadata` has a fifth key,
`/Creator`; and on a mapping whose `meta` value is a plain string the
extraction raises (`meta.get` on a non-dict), so no field is set at all. -/
theorem C1_counterexample :
    (metadataFields jdData).map (List.map Prod.fst) ≠
      some (["/Title", "/Author", "/Subject", "/Keywords"]) ∧
    metadataFields (jdData ++ [("meta", .str ("plain"))]) = none := by
  constructor
  · decide
  · rfl

/-- **C1** (amended): for every data mapping whose `meta` entry, when
present, is itself a mapping, the metadata patch passes `add_metadata`
exactly the five fields Title, Author, Subject, Keywords and Creator, where
Title is the `name - title` string, Author is the raw `name` value, Subject
is the mapping's `meta.description` if present or else the `name - title`
string, Keywords is `meta.keywords` if present or else the empty string,
`name` and `title` defaulting to the fixed placeholder string `Resume` when
absent, and Creator is the fixed tool string.  In particular (witness), for
a mapping with name `Jane Doe` and title `Engineer`, Title is exactly
`Jane Doe - Engineer` and Author is exactly `Jane Doe`. -/
theorem C1_metadata_fields (data : List (String × Yaml))
    (hmeta : (pyGetD data ("meta") (.map [])).isMapB = true) :
    ∃ md, metadataFields data = some md ∧
      md.map Prod.fst =
        ["/Title", "/Author", "/Subject", "/Keywords", "/Creator"] ∧
      pyLookup md ("/Title") =
        some (.str (pyStr (pyGetD data ("name") (.str ("Resume"))) ++ " - " ++
          pyStr (pyGetD data ("title") (.str ("Resume"))))) ∧
      pyLookup md ("/Author") = some (pyGetD data ("name") (.str ("Resume"))) ∧
      (∀ m, pyGetD data ("meta") (.map []) = .map m →
        pyLookup md ("/Subject") =
          some (pyGetD m ("description")
            (.str (pyStr (pyGetD data ("name") (.str ("Resume"))) ++ " - " ++
              pyStr (pyGetD data ("title") (.str ("Resume")))))) ∧
        pyLookup md ("/Keywords") = some (pyGetD m ("keywords") (.str ""))) ∧
      pyLookup md ("/Creator") = some (.str creatorString) := by
  cases hm : pyGetD data ("meta") (.map []) with
  | map m =>
      simp only [metadataFields, hm]
      refine ⟨_, rfl, ?_, ?_, ?_, ?_, ?_⟩
      · simp
      · simp [pyLookup]
      · simp [pyLookup]
      · intro m₂ hm₂
        cases hm₂
        exact ⟨by simp [pyLookup], by simp [pyLookup]⟩
      · simp [pyLookup]
  | null => simp [Yaml.isMapB, hm] at hmeta
  | bool b => simp [Yaml.isMapB, hm] at hmeta
  | int n => simp [Yaml.isMapB, hm] at hmeta
  | str s => simp [Yaml.isMapB, hm] at hmeta
  | list xs => simp [Yaml.isMapB, hm] at hmeta

/-- **C1** witness: the amended statement instantiated at the Jane Doe
mapping; its metadata dictionary has Title exactly `Jane Doe - Engineer` and
Author exactly `Jane Doe`. -/
theorem C1_metadata_fields_witness :
    ((pyGetD jdData ("meta") (.map [])).isMapB = true) ∧
    (∃ md, metadataFields jdData = some md ∧
      md.map Prod.fst =
        ["/Title", "/Author", "/Subject", "/Keywords", "/Creator"] ∧
      pyLookup md ("/Title") =
        some (.str (pyStr (pyGetD jdData ("name") (.str ("Resume"))) ++ " - " ++
          pyStr (pyGetD jdData ("title") (.str ("Resume"))))) ∧
      pyLookup md ("/Author") = some (pyGetD jdData ("name") (.str ("Resume"))) ∧
      (∀ m, pyGetD jdData ("meta") (.map []) = .map m →
        pyLookup md ("/Subject") =
          some (pyGetD m ("description")
            (.str (pyStr (pyGetD jdData ("name") (.str ("Resume"))) ++ " - " ++
              pyStr (pyGetD jdData ("title") (.str ("Resume")))))) ∧
        pyLookup md ("/Keywords") = some (pyGetD m ("keywords") (.str ""))) ∧
      pyLookup md ("/Creator") = some (.str creatorString)) ∧
    pyStr (pyGetD jdData ("name") (.str ("Resume"))) ++ " - " ++
      pyStr (pyGetD jdData ("title") (.str ("Resume"))) = "Jane Doe - Engineer" ∧
    pyGetD jdData ("name") (.str ("Resume")) = .str ("Jane Doe") :=
  ⟨rfl, C1_metadata_fields jdData rfl, rfl, rfl⟩

/-! ### C2: exit codes -/

/-- **C2**: the process exit code is 1 on each of the five fatal conditions
(missing data file, unparseable data file, missing template, template render
error, HTML write error), and when every prior stage succeeds the exit code
is 0 no matter what the PDF conversion and metadata sub-steps do (the
browser and pypdf environment fields are left unconstrained). -/
theorem C2_exit_codes (env : Env) (cli : Cli) :
    (env.dataFile = none → (runMain env cli).outcome.exitCode = 1) ∧
    (∀ e, env.dataFile = some (.error e) →
      (runMain env cli).outcome.exitCode = 1) ∧
    (env.templateIsFile = false → (runMain env cli).outcome.exitCode = 1) ∧
    (∀ d e, env.dataFile = some (.ok (.map d)) →
      env.render (augment env cli.template d) = .error e →
      (runMain env cli).outcome.exitCode = 1) ∧
    (∀ e, env.htmlWriteErr = some e → (runMain env cli).outcome.exitCode = 1) ∧
    (∀ d html, env.dataFile = some (.ok (.map d)) →
      env.templateIsFile = true →
      env.render (augment env cli.template d) = .ok html →
      env.htmlWriteErr = none →
      (runMain env cli).outcome.exitCode = 0) := by
  refine ⟨?_, ?_, ?_, ?_, ?_, ?_⟩
  · intro hd
    unfold runMain
    rw [runCore_outcome, hd]
    rfl
  · intro e hd
    unfold runMain
    rw [runCore_outcome, hd]
    rfl
  · intro ht
    unfold runMain
    rw [runCore_outcome]
    split
    · rfl
    · rfl
    · simp [ht, Outcome.exitCode]
    · rfl
  · intro d e hd hr
    unfold runMain
    rw [runCore_outcome, hd]
    by_cases ht : env.templateIsFile <;> simp [ht, hr, Outcome.exitCode]
  · intro e hw
    unfold runMain
    rw [runCore_outcome]
    split
    · rfl
    · rfl
    · split
      · split
        · rfl
        · rw [hw]
          rfl
      · rfl
    · rfl
  · intro d html hd ht hr hw
    unfold runMain
    rw [runCore_outcome, hd]
    simp [ht, hr, hw, Outcome.exitCode]

/-- **C2** witness: a missing data file exits 1; with every prior stage
succeeding, a browser subprocess that exits 9 still gives exit code 0, and a
failing pypdf replace step still gives exit code 0. -/
theorem C2_exit_codes_witness :
    ((runMain { envOk with dataFile := none } cliOk).outcome.exitCode = 1) ∧
    ((runMain { envOk with browserReturncode := 9 } cliOk).outcome.exitCode = 0) ∧
    ((runMain { envOk with
        pdf := { envOk.pdf with replaceOk := false } } cliOk).outcome.exitCode = 0) :=
  ⟨(C2_exit_codes _ _).1 rfl,
   (C2_exit_codes _ _).2.2.2.2.2 jdData ("<html>") rfl rfl rfl rfl,
   (C2_exit_codes _ _).2.2.2.2.2 jdData ("<html>") rfl rfl rfl rfl⟩

/-! ### C3: the browser-missing soft failure -/

/-- The observable signature of a soft failure that skips the rest of the PDF
stage: PDF export was requested, the process still exits 0, something was
printed to the error stream, and the metadata step never started. -/
def softSkipsPdfStageRest (env : Env) (cli : Cli) : Prop :=
  pdfTruthy (parsePdf cli.pdfFlag) = true ∧
  (runMain env cli).outcome.exitCode = 0 ∧
  (runMain env cli).stderr ≠ [] ∧
  readPdfPaths (runMain env cli).effects = []

/-- An environment in which the browser binary is found but the headless
subprocess exits non-zero. -/
def envBrFail : Env :=
  { envOk with browserReturncode := 1, browserStderr := "render crash" }

/-- **C3** counterexample: the claim calls the browser-missing path the only
soft-failure path that skips the rest of a stage without terminating the
process.  In an environment where a browser is found but its subprocess
fails, the run also exits 0 with a message on the error stream and the
metadata step skipped — a second such path. -/
theorem C3_counterexample :
    softSkipsPdfStageRest envBrFail cliOk ∧ firstBrowser envBrFail ≠ none := by
  refine ⟨⟨rfl, rfl, ?_, rfl⟩, ?_⟩ <;> decide

/-- **C3** (amended): with PDF export requested and HTML generation having
succeeded, if no candidate browser binary resolves then the conversion step
prints the warning and the remediation hint to the error stream and returns
without error — no browser runs, no PDF metadata step runs, no replace
happens, and the process exits 0; and it is the only path on which PDF
export was requested but the browser was never even invoked.  (A failing
browser subprocess is a further soft-failure path that skips the remainder
of the stage — the metadata patch — without terminating the process.) -/
theorem C3_browser_missing (env : Env) (cli : Cli) (d : List (String × Yaml))
    (html : String)
    (hd : env.dataFile = some (.ok (.map d)))
    (ht : env.templateIsFile = true)
    (hr : env.render (augment env cli.template d) = .ok html)
    (hw : env.htmlWriteErr = none)
    (hp : pdfTruthy (parsePdf cli.pdfFlag) = true) :
    (firstBrowser env = none →
      (runMain env cli).stderr =
        ["Warning: Chromium/Chrome not found. Skipping PDF conversion.",
         "Install chromium to enable PDF export."] ∧
      hasRunBrowser (runMain env cli).effects = false ∧
      readPdfPaths (runMain env cli).effects = [] ∧
      hasReplace (runMain env cli).effects = false ∧
      (runMain env cli).outcome.exitCode = 0) ∧
    (hasRunBrowser (runMain env cli).effects = false →
      firstBrowser env = none) := by
  constructor
  · intro hfb
    unfold runMain runCore load_yaml
    cases ho : cli.output <;>
      simp [hd, ht, hr, hw, hp, hfb, ho, convert_to_pdf, hasRunBrowser,
        readPdfPaths, hasReplace, hasRunBrowser_append, readPdfPaths_append,
        hasReplace_append, Outcome.exitCode] <;>
      split <;>
      simp [hasRunBrowser, readPdfPaths, hasReplace]
  · intro hnb
    cases hfb : firstBrowser env with
    | none => rfl
    | some bin =>
        exfalso
        unfold runMain runCore load_yaml at hnb
        by_cases hrc : env.browserReturncode = 0 <;>
          cases ho : cli.output <;>
            simp [hd, ht, hr, hw, hp, hfb, ho, hrc, convert_to_pdf,
              add_pdf_metadata, hasRunBrowser, hasRunBrowser_append] at hnb

/-- An environment in which no candidate browser binary resolves. -/
def envNoBrowser : Env := { envOk with whichOk := fun _ => false }

/-- **C3** witness: the amended statement at a concrete run (browser absent,
everything else succeeding, `--pdf` given). -/
theorem C3_browser_missing_witness :
    pdfTruthy (parsePdf cliOk.pdfFlag) = true ∧
    ((runMain envNoBrowser cliOk).stderr =
        ["Warning: Chromium/Chrome not found. Skipping PDF conversion.",
         "Install chromium to enable PDF export."] ∧
      hasRunBrowser (runMain envNoBrowser cliOk).effects = false ∧
      readPdfPaths (runMain envNoBrowser cliOk).effects = [] ∧
      hasReplace (runMain envNoBrowser cliOk).effects = false ∧
      (runMain envNoBrowser cliOk).outcome.exitCode = 0) :=
  ⟨rfl,
   (C3_browser_missing envNoBrowser cliOk jdData ("<html>")
      rfl rfl rfl rfl rfl).1 rfl⟩

/-! ### C4: the metadata patch writes a temp sibling, then replaces -/

/-- Whether every external step of the metadata patch succeeds in this
environment for this data: readable PDF, extractable metadata, writable
temporary file, successful replace. -/
def patchSucceeds (env : Env) (data : List (String × Yaml)) : Bool :=
  env.pdf.readOk && (metadataFields data).isSome &&
    env.pdf.tempWriteOk && env.pdf.replaceOk

/-- **C4**: the metadata patch writes the rewritten PDF to the `.tmp.pdf`
sibling first and only then replaces the original in one replace step (on
full success the trace is exactly read, write-temp, replace); on any failure
inside the patch no replace occurs, a warning is printed, and the pypdf
writer only ever wrote to the temporary sibling, never to the original path;
the patch performs no text-file writes; and no patch behaviour prevents the
process from finishing with outcome `ok` once the HTML stage succeeded. -/
theorem C4_patch_atomic (env : Env) (pdfPath : String)
    (data : List (String × Yaml)) :
    (patchSucceeds env data = true →
      (add_pdf_metadata env pdfPath data).1 =
        [.readPdf pdfPath, .writeBinary (pyWithSuffix pdfPath (".tmp.pdf")),
         .replaceFile (pyWithSuffix pdfPath (".tmp.pdf")) pdfPath] ∧
      (add_pdf_metadata env pdfPath data).2 = []) ∧
    (patchSucceeds env data = false →
      hasReplace (add_pdf_metadata env pdfPath data).1 = false ∧
      (add_pdf_metadata env pdfPath data).2 ≠ []) ∧
    (writeBinaryPaths (add_pdf_metadata env pdfPath data).1 = [] ∨
      writeBinaryPaths (add_pdf_metadata env pdfPath data).1 =
        [pyWithSuffix pdfPath (".tmp.pdf")]) ∧
    htmlWrites (add_pdf_metadata env pdfPath data).1 = [] ∧
    (∀ (cli : Cli) (d : List (String × Yaml)) (html : String),
      env.dataFile = some (.ok (.map d)) → env.templateIsFile = true →
      env.render (augment env cli.template d) = .ok html →
      env.htmlWriteErr = none →
      (runMain env cli).outcome = .ok) := by
  refine ⟨?_, ?_, ?_, ?_, ?_⟩
  · intro hs
    simp only [patchSucceeds, Bool.and_eq_true] at hs
    obtain ⟨⟨⟨h1, h2⟩, h3⟩, h4⟩ := hs
    cases hmf : metadataFields data with
    | none => rw [hmf] at h2; simp at h2
    | some md => simp [add_pdf_metadata, h1, hmf, h3, h4]
  · intro hs
    by_cases h1 : env.pdf.readOk
    · cases hmf : metadataFields data with
      | none => simp [add_pdf_metadata, h1, hmf, hasReplace]
      | some md =>
          by_cases h3 : env.pdf.tempWriteOk
          · by_cases h4 : env.pdf.replaceOk
            · rw [patchSucceeds, h1, hmf, h3, h4] at hs; simp at hs
            · simp [add_pdf_metadata, h1, hmf, h3, h4, hasReplace]
          · simp [add_pdf_metadata, h1, hmf, h3, hasReplace]
    · simp [add_pdf_metadata, h1, hasReplace]
  · by_cases h1 : env.pdf.readOk
    · cases hmf : metadataFields data with
      | none => left; simp [add_pdf_metadata, h1, hmf, writeBinaryPaths]
      | some md =>
          by_cases h3 : env.pdf.tempWriteOk
          · by_cases h4 : env.pdf.replaceOk <;>
              · right
                simp [add_pdf_metadata, h1, hmf, h3, h4, writeBinaryPaths]
          · right; simp [add_pdf_metadata, h1, hmf, h3, writeBinaryPaths]
    · left; simp [add_pdf_metadata, h1, writeBinaryPaths]
  · by_cases h1 : env.pdf.readOk
    · cases hmf : metadataFields data with
      | none => simp [add_pdf_metadata, h1, hmf, htmlWrites]
      | some md =>
          by_cases h3 : env.pdf.tempWriteOk
          · by_cases h4 : env.pdf.replaceOk <;>
              simp [add_pdf_metadata, h1, hmf, h3, h4, htmlWrites]
          · simp [add_pdf_metadata, h1, hmf, h3, htmlWrites]
    · simp [add_pdf_metadata, h1, htmlWrites]
  · intro cli d html hd ht hr hw
    unfold runMain
    rw [runCore_outcome, hd]
    simp [ht, hr, hw]

/-- An environment in which the final `os.replace` of the patch fails. -/
def envRepFail : Env :=
  { envOk with
    pdf :=
      { envOk.pdf with
        replaceOk := false
        replaceErr := "cross-device link" } }

/-- **C4** witness: on the path `export/resume.pdf` the successful patch
trace is exactly read, write to the sibling `export/resume.tmp.pdf` (a
distinct path), replace; with a failing replace no replace effect occurs, a
warning is printed, and the whole run still ends with outcome `ok`. -/
theorem C4_patch_atomic_witness :
    ((add_pdf_metadata envOk ("export/resume.pdf") jdData).1 =
      [.readPdf ("export/resume.pdf"),
       .writeBinary (pyWithSuffix ("export/resume.pdf") (".tmp.pdf")),
       .replaceFile (pyWithSuffix ("export/resume.pdf") (".tmp.pdf"))
         ("export/resume.pdf")] ∧
     (add_pdf_metadata envOk ("export/resume.pdf") jdData).2 = []) ∧
    pyWithSuffix ("export/resume.pdf") (".tmp.pdf") = "export/resume.tmp.pdf" ∧
    ("export/resume.tmp.pdf" : String) ≠ "export/resume.pdf" ∧
    (hasReplace (add_pdf_metadata envRepFail ("export/resume.pdf") jdData).1 =
        false ∧
      (add_pdf_metadata envRepFail ("export/resume.pdf") jdData).2 ≠ []) ∧
    (runMain envRepFail cliOk).outcome = .ok := by
  refine ⟨(C4_patch_atomic envOk ("export/resume.pdf") jdData).1 rfl,
    by decide, by decide,
    (C4_patch_atomic envRepFail ("export/resume.pdf") jdData).2.1 rfl,
    (C4_patch_atomic envRepFail ("export/resume.pdf") jdData).2.2.2.2
      cliOk jdData ("<html>") rfl rfl rfl rfl⟩

/-! ### C5: the render-time augmentation -/

/-- The PDF conversion stage never invokes the template engine. -/
theorem renderCalls_convert (env : Env) (h p : String)
    (data : List (String × Yaml)) :
    renderCalls (convert_to_pdf env h p data).1 = [] := by
  unfold convert_to_pdf add_pdf_metadata
  cases firstBrowser env <;>
    by_cases hrc : env.browserReturncode = 0 <;>
    by_cases h1 : env.pdf.readOk <;>
    cases hmf : metadataFields data <;>
    by_cases h3 : env.pdf.tempWriteOk <;>
    by_cases h4 : env.pdf.replaceOk <;>
    simp [hrc, h1, hmf, h3, h4, renderCalls]

/-- **C5**: before rendering, the data mapping is augmented with exactly one
derived field: the `resources_path` key is assigned the file URI of the
`resources` directory computed from the template's containing directory;
every other key keeps its original value; when the key was absent the key
list is extended by exactly this one key; and the template engine is invoked
exactly once, on exactly this augmented mapping. -/
theorem C5_augmentation (env : Env) (cli : Cli) (d : List (String × Yaml))
    (hd : env.dataFile = some (.ok (.map d)))
    (ht : env.templateIsFile = true) :
    renderCalls (runMain env cli).effects = [augment env cli.template d] ∧
    pyLookup (augment env cli.template d) ("resources_path") =
      some (.str (asUri (pyAbsolute env.cwd
        (pyJoin (pyParent cli.template) ("resources"))))) ∧
    (∀ k, k ≠ "resources_path" →
      pyLookup (augment env cli.template d) k = pyLookup d k) ∧
    (pyLookup d ("resources_path") = none →
      (augment env cli.template d).map Prod.fst =
        d.map Prod.fst ++ ["resources_path"]) := by
  refine ⟨?_, ?_, ?_, ?_⟩
  · unfold runMain runCore load_yaml
    cases hr : env.render (augment env cli.template d) with
    | error e => simp [hd, ht, hr, renderCalls]
    | ok html =>
        cases ho : cli.output <;>
          cases hw : env.htmlWriteErr <;>
            by_cases hp : pdfTruthy (parsePdf cli.pdfFlag) = true <;>
              by_cases hdef : parsePdf cli.pdfFlag = some ("default") <;>
                simp [hd, ht, hr, ho, hw, hp, hdef,
                  (show pdfTruthy (some ("default")) = true from rfl),
                  renderCalls, renderCalls_append, renderCalls_convert]
  · exact pyLookup_setItem_self d ("resources_path") _
  · intro k hk
    exact pyLookup_setItem_other d ("resources_path") k _ hk
  · intro h
    exact keys_setItem_of_absent d ("resources_path") _ h

/-- **C5** witness: the augmentation statement at a concrete succeeding run
on the Jane Doe mapping. -/
theorem C5_augmentation_witness :
    renderCalls (runMain envOk cliOk).effects =
      [augment envOk cliOk.template jdData] ∧
    pyLookup (augment envOk cliOk.template jdData) ("resources_path") =
      some (.str (asUri (pyAbsolute envOk.cwd
        (pyJoin (pyParent cliOk.template) ("resources"))))) ∧
    (∀ k, k ≠ "resources_path" →
      pyLookup (augment envOk cliOk.template jdData) k = pyLookup jdData k) ∧
    (pyLookup jdData ("resources_path") = none →
      (augment envOk cliOk.template jdData).map Prod.fst =
        jdData.map Prod.fst ++ ["resources_path"]) :=
  C5_augmentation envOk cliOk jdData rfl rfl

/-! ### C6: the `--pdf` destination -/

/-- When a browser is found and its subprocess succeeds, the conversion stage
opens exactly the chosen PDF path for the metadata patch and creates no
directory. -/
theorem convert_trace_paths (env : Env) (h p bin : String)
    (data : List (String × Yaml))
    (hfb : firstBrowser env = some bin)
    (hrc : env.browserReturncode = 0) :
    readPdfPaths (convert_to_pdf env h p data).1 = [p] ∧
    mkdirPaths (convert_to_pdf env h p data).1 = [] := by
  unfold convert_to_pdf add_pdf_metadata
  rw [hfb]
  by_cases h1 : env.pdf.readOk <;>
    cases hmf : metadataFields data <;>
    by_cases h3 : env.pdf.tempWriteOk <;>
    by_cases h4 : env.pdf.replaceOk <;>
    simp [hrc, h1, hmf, h3, h4, readPdfPaths, mkdirPaths]

/-- The invocation `--pdf default`: an explicit value equal to the argparse
sentinel. -/
def cliPdfExplicitDefault : Cli :=
  { cliOk with pdfFlag := some (some ("default")) }

/-- **C6** counterexample: with the explicit path `default` supplied to
`--pdf` (data file `data/resume.yaml`), the path is not used as given: the
PDF is produced at `./export/resume.pdf` and `./export` is created. -/
theorem C6_counterexample :
    readPdfPaths (runMain envOk cliPdfExplicitDefault).effects =
      ["./export/resume.pdf"] ∧
    (("./export/resume.pdf" : String) ≠ "default") ∧
    mkdirPaths (runMain envOk cliPdfExplicitDefault).effects = ["./export"] := by
  refine ⟨rfl, by decide, rfl⟩

/-- **C6** (amended): with PDF export requested, prior stages succeeding, an
explicit output path, and a browser found whose subprocess succeeds: when
`--pdf` is given with no value, the PDF destination is
`./export/<data-stem>.pdf` and `./export` is created; when `--pdf` is given
a non-empty explicit path other than the sentinel string `default`, that
path is used exactly as given and no directory is created.  (The
counterexample shows the sentinel value `default` is not used as given; an
empty explicit value disables PDF export altogether.) -/
theorem C6_pdf_destination (env : Env) (cli : Cli) (d : List (String × Yaml))
    (html outPath bin : String)
    (hd : env.dataFile = some (.ok (.map d)))
    (ht : env.templateIsFile = true)
    (hr : env.render (augment env cli.template d) = .ok html)
    (hw : env.htmlWriteErr = none)
    (hout : cli.output = some outPath)
    (hfb : firstBrowser env = some bin)
    (hrc : env.browserReturncode = 0) :
    (cli.pdfFlag = some none →
      readPdfPaths (runMain env cli).effects =
        ["./export/" ++ pyStem cli.dataPath ++ ".pdf"] ∧
      mkdirPaths (runMain env cli).effects = ["./export"]) ∧
    (∀ v, cli.pdfFlag = some (some v) → v ≠ "default" → v ≠ "" →
      readPdfPaths (runMain env cli).effects = [v] ∧
      mkdirPaths (runMain env cli).effects = []) := by
  constructor
  · intro hflag
    unfold runMain runCore load_yaml
    simp [hd, ht, hr, hw, hout, hflag, parsePdf, pdfTruthy,
      readPdfPaths, readPdfPaths_append, mkdirPaths, mkdirPaths_append,
      convert_trace_paths env _ _ bin _ hfb hrc]
  · intro v hflag hvd hve
    unfold runMain runCore load_yaml
    simp [hd, ht, hr, hw, hout, hflag, parsePdf, pdfTruthy, hvd, hve,
      readPdfPaths, readPdfPaths_append, mkdirPaths, mkdirPaths_append,
      convert_trace_paths env _ _ bin _ hfb hrc]

/-- The invocation with the bare `--pdf` flag and an explicit `--pdf my.pdf`
variant. -/
def cliPdfExplicit : Cli := { cliOk with pdfFlag := some (some ("my.pdf")) }

/-- **C6** witness: at concrete runs, the bare flag produces
`./export/resume.pdf` and creates `./export`; the explicit path `my.pdf` is
used as given and creates nothing. -/
theorem C6_pdf_destination_witness :
    (readPdfPaths (runMain envOk cliOk).effects =
        ["./export/" ++ pyStem cliOk.dataPath ++ ".pdf"] ∧
      mkdirPaths (runMain envOk cliOk).effects = ["./export"]) ∧
    (readPdfPaths (runMain envOk cliPdfExplicit).effects = ["my.pdf"] ∧
      mkdirPaths (runMain envOk cliPdfExplicit).effects = []) :=
  ⟨(C6_pdf_destination envOk cliOk jdData ("<html>") ("out.html") ("chrome")
      rfl rfl rfl rfl rfl rfl rfl).1 rfl,
   (C6_pdf_destination envOk cliPdfExplicit jdData ("<html>") ("out.html")
      ("chrome") rfl rfl rfl rfl rfl rfl rfl).2 ("my.pdf") rfl
      (by decide) (by decide)⟩

/-! ### C7: failed data load performs no writes -/

/-- **C7**: when the data file is missing or unparseable the process exits
non-zero having produced an empty effect trace: no filesystem write of any
kind, and in particular no template rendering. -/
theorem C7_no_writes (env : Env) (cli : Cli)
    (h : env.dataFile = none ∨ ∃ e, env.dataFile = some (.error e)) :
    (runMain env cli).outcome.exitCode ≠ 0 ∧
    (runMain env cli).effects = [] ∧
    writesB (runMain env cli).effects = false ∧
    renderCalls (runMain env cli).effects = [] := by
  rcases h with h | ⟨e, h⟩ <;>
    · unfold runMain runCore load_yaml
      simp [h, Outcome.exitCode, writesB, renderCalls]

/-- An environment whose data file exists but does not parse. -/
def envBadYaml : Env :=
  { envOk with dataFile := some (.error ("mapping values are not allowed here")) }

/-- **C7** witness: concrete missing-file and parse-error runs. -/
theorem C7_no_writes_witness :
    ((runMain { envOk with dataFile := none } cliOk).outcome.exitCode ≠ 0 ∧
     (runMain { envOk with dataFile := none } cliOk).effects = [] ∧
     writesB (runMain { envOk with dataFile := none } cliOk).effects = false ∧
     renderCalls (runMain { envOk with dataFile := none } cliOk).effects = []) ∧
    ((runMain envBadYaml cliOk).outcome.exitCode ≠ 0 ∧
     (runMain envBadYaml cliOk).effects = [] ∧
     writesB (runMain envBadYaml cliOk).effects = false ∧
     renderCalls (runMain envBadYaml cliOk).effects = []) :=
  ⟨C7_no_writes _ cliOk (Or.inl rfl),
   C7_no_writes _ cliOk (Or.inr ⟨_, rfl⟩)⟩

/-! ### C8: the HTML output is a function of the inputs alone -/

/-- The PDF conversion stage performs no text-file write. -/
theorem htmlWrites_convert (env : Env) (h p : String)
    (data : List (String × Yaml)) :
    htmlWrites (convert_to_pdf env h p data).1 = [] := by
  unfold convert_to_pdf add_pdf_metadata
  cases firstBrowser env <;>
    by_cases hrc : env.browserReturncode = 0 <;>
    by_cases h1 : env.pdf.readOk <;>
    cases hmf : metadataFields data <;>
    by_cases h3 : env.pdf.tempWriteOk <;>
    by_cases h4 : env.pdf.replaceOk <;>
    simp [hrc, h1, hmf, h3, h4, htmlWrites]

/-- Closed form of the text-file writes of a run: exactly one write, of the
rendered markup, to the resolved output path, whenever the data loads as a
mapping, the template exists and rendering succeeds; nothing otherwise.  The
browser and pypdf environment fields do not appear. -/
theorem htmlWrites_runCore (env : Env) (tpl dp : String)
    (out : Option String) (ap : Option String) :
    htmlWrites (runCore env tpl dp out ap).effects =
      match env.dataFile with
      | some (.ok (.map d)) =>
          if env.templateIsFile then
            match env.render (augment env tpl d) with
            | .ok h =>
                [(match out with
                  | some p => p
                  | none =>
                      env.tempDir ++ "/cv_generation" ++ "/" ++
                        pyStem dp ++ ".html", h)]
            | .error _ => []
          else []
      | _ => [] := by
  cases hdf : env.dataFile with
  | none => simp [runCore, load_yaml, hdf, htmlWrites]
  | some r =>
    cases r with
    | error e => simp [runCore, load_yaml, hdf, htmlWrites]
    | ok y =>
      cases y with
      | map d =>
          by_cases ht : env.templateIsFile
          · cases hr : env.render (augment env tpl d) with
            | error e => simp [runCore, load_yaml, hdf, ht, hr, htmlWrites]
            | ok html =>
                cases hw : env.htmlWriteErr with
                | some e =>
                    cases ho : out <;>
                      simp [runCore, load_yaml, hdf, ht, hr, hw, ho,
                        htmlWrites, htmlWrites_append]
                | none =>
                    cases ho : out <;>
                      by_cases hp : pdfTruthy ap = true <;>
                        by_cases hdef : ap = some ("default") <;>
                          simp [runCore, load_yaml, hdf, ht, hr, hw, ho, hp,
                            hdef,
                            (show pdfTruthy (some ("default")) = true from rfl),
                            htmlWrites, htmlWrites_append, htmlWrites_convert]
          · simp [runCore, load_yaml, hdf, ht, htmlWrites]
      | null => simp [runCore, load_yaml, hdf, htmlWrites]
      | bool b => simp [runCore, load_yaml, hdf, htmlWrites]
      | int n => simp [runCore, load_yaml, hdf, htmlWrites]
      | str s => simp [runCore, load_yaml, hdf, htmlWrites]
      | list xs => simp [runCore, load_yaml, hdf, htmlWrites]

/-- **C8**: two runs with the same command line (explicit output path), the
same working directory, the same data file content, the same template file
(same existence and rendering behaviour) and succeeding HTML writes perform
identical text-file writes — the same content to the same path — no matter
how the rest of the two environments (browser, pypdf) differ. -/
theorem C8_idempotent (e1 e2 : Env) (cli : Cli) (p : String)
    (hout : cli.output = some p)
    (hcwd : e1.cwd = e2.cwd)
    (hdata : e1.dataFile = e2.dataFile)
    (htpl : e1.templateIsFile = e2.templateIsFile)
    (hrender : e1.render = e2.render)
    (hw1 : e1.htmlWriteErr = none)
    (hw2 : e2.htmlWriteErr = none) :
    htmlWrites (runMain e1 cli).effects = htmlWrites (runMain e2 cli).effects := by
  have haug : augment e1 cli.template = augment e2 cli.template := by
    funext d
    unfold augment
    rw [hcwd]
  unfold runMain
  rw [htmlWrites_runCore, htmlWrites_runCore]
  simp only [hdata, htpl, hrender, haug, hout]

/-- An environment that agrees with `envOk` on everything the HTML stage
reads but differs in the temp directory and the whole PDF stage. -/
def envOtherPdf : Env :=
  { envOk with
    tempDir := "/var/tmp"
    whichOk := fun _ => false
    browserReturncode := 7
    browserStderr := "crashed"
    pdf :=
      { readOk := false, readErr := "broken"
        tempWriteOk := false, tempWriteErr := "denied"
        replaceOk := false, replaceErr := "denied" } }

/-- **C8** witness: a fully succeeding run and a run with every PDF-stage
step failing write the same HTML bytes to the same explicit output path. -/
theorem C8_idempotent_witness :
    htmlWrites (runMain envOk cliOk).effects =
      htmlWrites (runMain envOtherPdf cliOk).effects :=
  C8_idempotent envOk envOtherPdf cliOk ("out.html")
    rfl rfl rfl rfl rfl rfl rfl

/-! ### C9: a non-mapping data file raises an uncaught TypeError -/

/-- **C9**: when the data file parses to a non-mapping value (null from an
empty file, a list, or a scalar), the `resources_path` item assignment
raises an uncaught `TypeError`: the process terminates with a traceback
(exit status 1), not through any designed fatal path — nothing is printed
to the error stream by the program itself. -/
theorem C9_nonmap_uncaught (env : Env) (cli : Cli) (y : Yaml)
    (hd : env.dataFile = some (.ok y)) (hy : y.isMapB = false) :
    (runMain env cli).outcome =
      .uncaught ("TypeError: the parsed value does not support item assignment") ∧
    (∀ c m, (runMain env cli).outcome ≠ .fatal c m) ∧
    (runMain env cli).stderr = [] ∧
    (runMain env cli).outcome.exitCode = 1 := by
  cases y with
  | map d => simp [Yaml.isMapB] at hy
  | null =>
      unfold runMain runCore load_yaml
      simp [hd, Outcome.exitCode]
  | bool b =>
      unfold runMain runCore load_yaml
      simp [hd, Outcome.exitCode]
  | int n =>
      unfold runMain runCore load_yaml
      simp [hd, Outcome.exitCode]
  | str s =>
      unfold runMain runCore load_yaml
      simp [hd, Outcome.exitCode]
  | list xs =>
      unfold runMain runCore load_yaml
      simp [hd, Outcome.exitCode]

/-- **C9** witness: an empty data file (parsed value null) at a concrete
run. -/
theorem C9_nonmap_uncaught_witness :
    (runMain { envOk with dataFile := some (.ok .null) } cliOk).outcome =
      .uncaught ("TypeError: the parsed value does not support item assignment") ∧
    (∀ c m, (runMain { envOk with dataFile := some (.ok .null) } cliOk).outcome ≠
      .fatal c m) ∧
    (runMain { envOk with dataFile := some (.ok .null) } cliOk).stderr = [] ∧
    (runMain { envOk with dataFile := some (.ok .null) } cliOk).outcome.exitCode
      = 1 :=
  C9_nonmap_uncaught _ cliOk .null rfl rfl

/-! ### C10: an explicit `--pdf default` hits the sentinel -/

/-- **C10**: supplying the explicit value `default` to `--pdf` is
indistinguishable from giving the flag with no value: the whole run result
is identical, and (under a found browser and successful conversion) the PDF
goes to `./export/<data-stem>.pdf` with `./export` auto-created, not to a
file named `default`. -/
theorem C10_pdf_sentinel (env : Env) (cli : Cli)
    (hp : cli.pdfFlag = some (some ("default"))) :
    runMain env cli = runMain env { cli with pdfFlag := some none } ∧
    (∀ (d : List (String × Yaml)) (html outPath bin : String),
      env.dataFile = some (.ok (.map d)) → env.templateIsFile = true →
      env.render (augment env cli.template d) = .ok html →
      env.htmlWriteErr = none → cli.output = some outPath →
      firstBrowser env = some bin → env.browserReturncode = 0 →
      readPdfPaths (runMain env cli).effects =
        ["./export/" ++ pyStem cli.dataPath ++ ".pdf"] ∧
      mkdirPaths (runMain env cli).effects = ["./export"]) := by
  constructor
  · unfold runMain
    rw [hp]
    rfl
  · intro d html outPath bin hd ht hr hw hout hfb hrc
    unfold runMain runCore load_yaml
    simp [hd, ht, hr, hw, hout, hp, parsePdf, pdfTruthy,
      readPdfPaths, readPdfPaths_append, mkdirPaths, mkdirPaths_append,
      convert_trace_paths env _ _ bin _ hfb hrc]

/-- **C10** witness: the concrete `--pdf default` invocation equals the
bare-flag invocation and produces `./export/resume.pdf` with `./export`
created. -/
theorem C10_pdf_sentinel_witness :
    runMain envOk cliPdfExplicitDefault =
      runMain envOk { cliPdfExplicitDefault with pdfFlag := some none } ∧
    readPdfPaths (runMain envOk cliPdfExplicitDefault).effects =
      ["./export/" ++ pyStem cliPdfExplicitDefault.dataPath ++ ".pdf"] ∧
    mkdirPaths (runMain envOk cliPdfExplicitDefault).effects = ["./export"] :=
  ⟨(C10_pdf_sentinel envOk cliPdfExplicitDefault rfl).1,
   ((C10_pdf_sentinel envOk cliPdfExplicitDefault rfl).2 jdData ("<html>")
      ("out.html") ("chrome") rfl rfl rfl rfl rfl rfl rfl).1,
   ((C10_pdf_sentinel envOk cliPdfExplicitDefault rfl).2 jdData ("<html>")
      ("out.html") ("chrome") rfl rfl rfl rfl rfl rfl rfl).2⟩

end CvGen
